import Mathlib

/-!
Verification of the TuneMPC example scripts (`examples/unicycle/main.py` and
`examples/evaporation_process/main.py`).

The scripts are glue code around an external tuning library: they declare
problem data, dynamics, an objective, build three MPC controllers (economic,
tracking, tuned) and run a closed-loop simulation loop.  We embed the
script-level data flow shallowly: the external library calls (controller
`step`, the plant integrator, the tuner's stage cost `l`, the solved OCP
reference `wsol`) are fields of an environment record, and every piece of
logic that lives in the scripts themselves (the disturbance schedule, the
order of operations inside the loop, the logging, the construction
arguments of the controllers, the problem-data dictionaries) is transcribed
from the source.
-/

namespace Unicycle

/-- The unicycle state vector: components `z, y, ez, ey` at indices `0..3`
(`vars()` in the script declares `struct_symMX(['z','y','ez','ey'])`). -/
def UniState : Type := Fin 4 → ℚ

/-- Horizon / period of the periodic OCP: `N = 30` in the script. -/
def N : ℕ := 30

/-- Number of closed-loop simulation steps: `Nsim = 250` in the script. -/
def Nsim : ℕ := 250

/-- Scheduled disturbance steps: `Nstep = [0, 34, 69, 105]`. -/
def Nstep : List ℕ := [0, 34, 69, 105]

/-- Scheduled disturbance magnitudes: `dist_z = [0.1, 0.1, 0.5, 0.5]`. -/
def dist_z : List ℚ := [1/10, 1/10, 1/2, 1/2]

/-- `if k in Nstep: dist = dist_z[Nstep.index(k)]`: the disturbance magnitude
scheduled at simulation step `k`, if any. -/
def distAt (k : ℕ) : Option ℚ :=
  if k ∈ Nstep then some (dist_z.getD (Nstep.indexOf k) 0) else none

/-- `x_init[0] += dist`: add `d` to the first state component. -/
def bump (x : UniState) (d : ℚ) : UniState :=
  fun i => if i = 0 then x i + d else x i

/-- The disturbance application of one loop iteration, acting on one
controller's tracked state (the script applies the same `dist` to each of
`x_initE`, `x_initTn`, `x_initTt`). -/
def applyDist (k : ℕ) (x : UniState) : UniState :=
  match distAt k with
  | some d => bump x d
  | none => x

/-- The external-library surface used by the closed-loop loop, as pure
functions.  `U` is the control type; `CE`, `CTn`, `CTt` are the internal
states of the three (opaque, possibly stateful) MPC controller objects.
`stepE/stepTn/stepTt` model `ctrlE.step`, `ctrlTn.step`, `ctrlTt.step`;
`plant` models `plant_sim(x0 = ., p = .)['xf']`; `l` models `tuner.l`;
`xref`/`uref` model the solved OCP trajectory `wsol['x', .]`, `wsol['u', .]`. -/
structure Env (U CE CTn CTt : Type) where
  stepE : CE → UniState → U × CE
  stepTn : CTn → UniState → U × CTn
  stepTt : CTt → UniState → U × CTt
  plant : UniState → U → UniState
  l : UniState → U → ℚ
  xref : ℕ → UniState
  uref : ℕ → U

/-- The mutable script state threaded through the loop: the three tracked
plant states `x_initE/x_initTn/x_initTt`, the three controller objects'
internal states, and the six logs `uE, uTn, uTt, lE, lTn, lTt`. -/
structure LoopState (U CE CTn CTt : Type) where
  xE : UniState
  xTn : UniState
  xTt : UniState
  cE : CE
  cTn : CTn
  cTt : CTt
  uE : List U
  uTn : List U
  uTt : List U
  lE : List ℚ
  lTn : List ℚ
  lTt : List ℚ

variable {U CE CTn CTt : Type}

/-- One iteration `k` of the closed-loop simulation loop (lines 159-179 of
`examples/unicycle/main.py`): apply the scheduled disturbance (if any) to
each tracked state, query each controller on its (possibly perturbed)
tracked state and append the control, append the stage-cost deviations
against the periodic reference at index `k % N`, then advance each tracked
state through the plant model with the control just produced. -/
def stepSim (env : Env U CE CTn CTt) (k : ℕ) (s : LoopState U CE CTn CTt) :
    LoopState U CE CTn CTt :=
  let x1E := applyDist k s.xE
  let x1Tn := applyDist k s.xTn
  let x1Tt := applyDist k s.xTt
  let rE := env.stepE s.cE x1E
  let rTn := env.stepTn s.cTn x1Tn
  let rTt := env.stepTt s.cTt x1Tt
  let lOpt := env.l (env.xref (k % N)) (env.uref (k % N))
  { xE := env.plant x1E rE.1
    xTn := env.plant x1Tn rTn.1
    xTt := env.plant x1Tt rTt.1
    cE := rE.2
    cTn := rTn.2
    cTt := rTt.2
    uE := s.uE ++ [rE.1]
    uTn := s.uTn ++ [rTn.1]
    uTt := s.uTt ++ [rTt.1]
    lE := s.lE ++ [env.l x1E rE.1 - lOpt]
    lTn := s.lTn ++ [env.l x1Tn rTn.1 - lOpt]
    lTt := s.lTt ++ [env.l x1Tt rTt.1 - lOpt] }

/-- Running the loop for iterations `k = 0, 1, ..., n-1` in order. -/
def simulate (env : Env U CE CTn CTt) : ℕ → LoopState U CE CTn CTt →
    LoopState U CE CTn CTt
  | 0, s => s
  | n + 1, s => stepSim env n (simulate env n s)

/-- The script's initialisation before the loop: all three tracked states
start at `wsol['x',0]` (= `env.xref 0`), the logs start empty. -/
def initState (env : Env U CE CTn CTt) (cE0 : CE) (cTn0 : CTn) (cTt0 : CTt) :
    LoopState U CE CTn CTt :=
  { xE := env.xref 0, xTn := env.xref 0, xTt := env.xref 0
    cE := cE0, cTn := cTn0, cTt := cTt0
    uE := [], uTn := [], uTt := [], lE := [], lTn := [], lTt := [] }

/-- Operational reading of the loop: `Run env n s0 s` holds when iterations
`0, ..., n-1` executed in order starting from `s0` end in state `s`. -/
inductive Run (env : Env U CE CTn CTt) :
    ℕ → LoopState U CE CTn CTt → LoopState U CE CTn CTt → Prop
  | zero (s : LoopState U CE CTn CTt) : Run env 0 s s
  | succ {n : ℕ} {s0 s1 : LoopState U CE CTn CTt} :
      Run env n s0 s1 → Run env (n + 1) s0 (stepSim env n s1)

/-- The external-library surface again, but with fallible calls: a controller
`step` or a plant call may fail (raise), modelled by `none`.  The script has
no error handling, so a failure aborts the run. -/
structure EnvF (U CE CTn CTt : Type) where
  stepE : CE → UniState → Option (U × CE)
  stepTn : CTn → UniState → Option (U × CTn)
  stepTt : CTt → UniState → Option (U × CTt)
  plant : UniState → U → Option UniState
  l : UniState → U → ℚ
  xref : ℕ → UniState
  uref : ℕ → U

/-- One loop iteration with fallible external calls, statement by statement
in source order.  A failing call aborts the iteration with `Except.error`
carrying the script state exactly as it stands at the failing statement:
the assignments and `append`s executed before the failing call have taken
effect, nothing after it has. -/
def stepSimF (env : EnvF U CE CTn CTt) (k : ℕ) (s : LoopState U CE CTn CTt) :
    Except (LoopState U CE CTn CTt) (LoopState U CE CTn CTt) :=
  let x1E := applyDist k s.xE
  let x1Tn := applyDist k s.xTn
  let x1Tt := applyDist k s.xTt
  match env.stepE s.cE x1E with
  | none => .error { s with xE := x1E, xTn := x1Tn, xTt := x1Tt }
  | some rE =>
  match env.stepTn s.cTn x1Tn with
  | none => .error { s with
      xE := x1E, xTn := x1Tn, xTt := x1Tt,
      uE := s.uE ++ [rE.1], cE := rE.2 }
  | some rTn =>
  match env.stepTt s.cTt x1Tt with
  | none => .error { s with
      xE := x1E, xTn := x1Tn, xTt := x1Tt,
      uE := s.uE ++ [rE.1], cE := rE.2,
      uTn := s.uTn ++ [rTn.1], cTn := rTn.2 }
  | some rTt =>
  let lOpt := env.l (env.xref (k % N)) (env.uref (k % N))
  let lE1 := s.lE ++ [env.l x1E rE.1 - lOpt]
  let lTn1 := s.lTn ++ [env.l x1Tn rTn.1 - lOpt]
  let lTt1 := s.lTt ++ [env.l x1Tt rTt.1 - lOpt]
  match env.plant x1E rE.1 with
  | none => .error { s with
      xE := x1E, xTn := x1Tn, xTt := x1Tt,
      uE := s.uE ++ [rE.1], cE := rE.2,
      uTn := s.uTn ++ [rTn.1], cTn := rTn.2,
      uTt := s.uTt ++ [rTt.1], cTt := rTt.2,
      lE := lE1, lTn := lTn1, lTt := lTt1 }
  | some x2E =>
  match env.plant x1Tn rTn.1 with
  | none => .error { s with
      xE := x2E, xTn := x1Tn, xTt := x1Tt,
      uE := s.uE ++ [rE.1], cE := rE.2,
      uTn := s.uTn ++ [rTn.1], cTn := rTn.2,
      uTt := s.uTt ++ [rTt.1], cTt := rTt.2,
      lE := lE1, lTn := lTn1, lTt := lTt1 }
  | some x2Tn =>
  match env.plant x1Tt rTt.1 with
  | none => .error { s with
      xE := x2E, xTn := x2Tn, xTt := x1Tt,
      uE := s.uE ++ [rE.1], cE := rE.2,
      uTn := s.uTn ++ [rTn.1], cTn := rTn.2,
      uTt := s.uTt ++ [rTt.1], cTt := rTt.2,
      lE := lE1, lTn := lTn1, lTt := lTt1 }
  | some x2Tt => .ok { s with
      xE := x2E, xTn := x2Tn, xTt := x2Tt,
      uE := s.uE ++ [rE.1], cE := rE.2,
      uTn := s.uTn ++ [rTn.1], cTn := rTn.2,
      uTt := s.uTt ++ [rTt.1], cTt := rTt.2,
      lE := lE1, lTn := lTn1, lTt := lTt1 }

/-- Running the fallible loop: once an iteration fails, the failure
propagates (no retry, no recovery) and the state at the failing statement
is what remains. -/
def simulateF (env : EnvF U CE CTn CTt) :
    ℕ → LoopState U CE CTn CTt →
    Except (LoopState U CE CTn CTt) (LoopState U CE CTn CTt)
  | 0, s => .ok s
  | n + 1, s =>
    match simulateF env n s with
    | .error e => .error e
    | .ok s1 => stepSimF env n s1

/-- Total duration of the periodic orbit: `T = 5` seconds in the script. -/
def T : ℚ := 5

/-- The continuous-time unicycle vector field of `dynamics` (lines 56-61):
`xdot = (v*ez, v*ey, -u*ey - rho*ez*(ez^2+ey^2-1), u*ez - rho*ey*(ez^2+ey^2-1))`,
with `rho` and `v` read from the problem-data mapping. -/
def xdotUnicycle (data : List (String × ℚ)) (x : UniState) (u : ℚ) : UniState :=
  fun i =>
    let rho := ((data.lookup "rho").getD 0)
    let v := ((data.lookup "v").getD 0)
    match i with
    | 0 => v * x 2
    | 1 => v * x 3
    | 2 => -u * x 3 - rho * x 2 * (x 2 ^ 2 + x 3 ^ 2 - 1)
    | 3 => u * x 2 - rho * x 3 * (x 2 ^ 2 + x 3 ^ 2 - 1)

/-- `problemData()` of the unicycle script: `rho = 0.001`, `v = 1`. -/
def problemData : List (String × ℚ) := [("rho", 1/1000), ("v", 1)]

/-- `dynamics(x, u, data, h)` hands the vector field, the integration time
`tf = h` and `number_of_finite_elements = 50` to the external CasADi
Runge-Kutta integrator factory; `integrator` is that opaque factory. -/
def dynamicsF
    (integrator : (UniState → ℚ → UniState) → ℚ → ℕ → (UniState → ℚ → UniState))
    (data : List (String × ℚ)) (h : ℚ) : UniState → ℚ → UniState :=
  integrator (xdotUnicycle data) h 50

/-- The discrete-time model handed to the tuner:
`tunempc.Tuner(f = dynamics(x, u, data, h = T/N), ...)`. -/
def tunerModel
    (integrator : (UniState → ℚ → UniState) → ℚ → ℕ → (UniState → ℚ → UniState)) :
    UniState → ℚ → UniState :=
  dynamicsF integrator problemData (T / (N : ℚ))

/-- The plant used by the closed-loop loop:
`plant_sim = dynamics(x, u, data, h = T/N)`. -/
def plant_sim
    (integrator : (UniState → ℚ → UniState) → ℚ → ℕ → (UniState → ℚ → UniState)) :
    UniState → ℚ → UniState :=
  dynamicsF integrator problemData (T / (N : ℚ))

end Unicycle

/-- Descriptor of a `create_mpc` call: which tuner object it is invoked on,
the variant string, the horizon `N`, and whether a custom `tuning` argument
is passed. -/
structure MpcCall where
  tunerId : ℕ
  variant : String
  horizon : ℕ
  customTuning : Bool
  deriving DecidableEq

namespace Unicycle

/-- The single tuner object constructed by the unicycle script. -/
def tunerId : ℕ := 0

/-- `ctrlE = tuner.create_mpc('economic', N, opts=opts)`. -/
def ctrlE_call : MpcCall := ⟨tunerId, "economic", N, false⟩

/-- `ctrlTn = tuner.create_mpc('tracking', N, opts=opts, tuning=tuningTn)`. -/
def ctrlTn_call : MpcCall := ⟨tunerId, "tracking", N, true⟩

/-- `ctrlTt = tuner.create_mpc('tuned', N, opts=opts)`. -/
def ctrlTt_call : MpcCall := ⟨tunerId, "tuned", N, false⟩

end Unicycle

namespace Evap

/-- Dictionary read `data[k]` (the scripts only read keys that are present;
the default is never hit on the accesses we model). -/
def lookupD (d : List (String × ℚ)) (k : String) : ℚ := ((d.lookup k).getD 0)

/-- Dictionary write `data[k] = v` (none of the keys written by
`intermediate_vars` pre-exists, so prepending is dict assignment here). -/
def setD (d : List (String × ℚ)) (k : String) (v : ℚ) : List (String × ℚ) :=
  (k, v) :: d

/-- `problem_data()` of the evaporation-process script: the fixed mapping of
named physical constants. -/
def problem_data : List (String × ℚ) :=
  [("a", 5616/10000), ("b", 3126/10000), ("c", 4843/100), ("d", 507/1000),
   ("e", 55), ("f", 1538/10000), ("g", 90), ("h", 16/100),
   ("M", 20), ("C", 4), ("UA2", 684/100), ("Cp", 7/100),
   ("lam", 385/10), ("lams", 366/10), ("F1", 10), ("X1", 5),
   ("F3", 50), ("T1", 40), ("T200", 25)]

/-- `intermediate_vars(x, u, data)` (lines 71-87): writes the derived model
variables `T2, T3, T100, UA1, Q100, F100, Q200, F5, F4, F2` into the same
mapping `data`, reading the previously stored entries, and returns it.
`xX2, xP2` are the components of `x` and `uP100, uF200` those of `u`. -/
def intermediate_vars (xX2 xP2 uP100 uF200 : ℚ) (data : List (String × ℚ)) :
    List (String × ℚ) :=
  let d := setD data "T2" (lookupD data "a" * xP2 + lookupD data "b" * xX2 +
    lookupD data "c")
  let d := setD d "T3" (lookupD d "d" * xP2 + lookupD d "e")
  let d := setD d "T100" (lookupD d "f" * uP100 + lookupD d "g")
  let d := setD d "UA1" (lookupD d "h" * (lookupD d "F1" + lookupD d "F3"))
  let d := setD d "Q100" (lookupD d "UA1" * (lookupD d "T100" - lookupD d "T2"))
  let d := setD d "F100" (lookupD d "Q100" / lookupD d "lams")
  let d := setD d "Q200" (lookupD d "UA2" * (lookupD d "T3" - lookupD d "T200") /
    (1 + lookupD d "UA2" / (2 * lookupD d "Cp" * uF200)))
  let d := setD d "F5" (lookupD d "Q200" / lookupD d "lam")
  let d := setD d "F4" ((lookupD d "Q100" -
    lookupD d "F1" * lookupD d "Cp" * (lookupD d "T2" - lookupD d "T1")) /
    lookupD d "lam")
  let d := setD d "F2" (lookupD d "F1" - lookupD d "F4")
  d

/-- The keys `intermediate_vars` adds, in the order they end up at the head
of the mapping. -/
def addedKeys : List String :=
  ["F2", "F4", "F5", "Q200", "F100", "Q100", "UA1", "T100", "T3", "T2"]

/-- The single tuner object constructed by the evaporation script. -/
def tunerId : ℕ := 0

/-- Horizon of the evaporation-script controllers: `N = 200`. -/
def N : ℕ := 200

/-- `ctrls['economic'] = tuner.create_mpc('economic', N = N)`. -/
def ctrlE_call : MpcCall := ⟨tunerId, "economic", N, false⟩

/-- `ctrls['tracking'] = tuner.create_mpc('tracking', N = N, tuning = tuningTn)`. -/
def ctrlTn_call : MpcCall := ⟨tunerId, "tracking", N, true⟩

/-- `ctrls['tuned'] = tuner.create_mpc('tuned', N = N)`. -/
def ctrlTt_call : MpcCall := ⟨tunerId, "tuned", N, false⟩

end Evap

/-! ## Concrete instances used by witnesses -/

namespace Unicycle

/-- A concrete deterministic environment (stateless controllers over `ℚ`
controls) used to exercise the loop on concrete inputs. -/
def env0 : Env ℚ Unit Unit Unit :=
  { stepE := fun c x => (x 0, c)
    stepTn := fun c x => (x 1, c)
    stepTt := fun c x => (x 2, c)
    plant := fun x u => fun i => x i + u
    l := fun x u => x 0 + u
    xref := fun _ => fun _ => 0
    uref := fun _ => 0 }

/-- The initial loop state of `env0`. -/
def s0w : LoopState ℚ Unit Unit Unit := initState env0 () () ()

/-- A concrete fallible environment whose tracking-controller `step` always
fails and whose other calls always succeed. -/
def envF0 : EnvF ℚ Unit Unit Unit :=
  { stepE := fun c x => some (x 0, c)
    stepTn := fun _ _ => none
    stepTt := fun c x => some (x 2, c)
    plant := fun x u => some (fun i => x i + u)
    l := fun x u => x 0 + u
    xref := fun _ => fun _ => 0
    uref := fun _ => 0 }

/-- The initial loop state of `envF0`. -/
def sF0 : LoopState ℚ Unit Unit Unit :=
  { xE := fun _ => 0, xTn := fun _ => 0, xTt := fun _ => 0
    cE := (), cTn := (), cTt := ()
    uE := [], uTn := [], uTt := [], lE := [], lTn := [], lTt := [] }

/-- The state at which `envF0`'s first iteration crashes: the disturbance at
`k = 0` has been applied and the economic control has been appended, and the
failing tracking `step` has left everything else untouched. -/
def eF0 : LoopState ℚ Unit Unit Unit :=
  { sF0 with xE := applyDist 0 sF0.xE, xTn := applyDist 0 sF0.xTn,
             xTt := applyDist 0 sF0.xTt,
             uE := sF0.uE ++ [(applyDist 0 sF0.xE) 0], cE := () }

end Unicycle

/-! ## Helper lemmas -/

namespace Unicycle

/-- Closed-form reading of the disturbance schedule. -/
theorem distAt_eq (k : ℕ) :
    distAt k = if k = 0 ∨ k = 34 then some (1/10)
      else if k = 69 ∨ k = 105 then some (1/2) else none := by
  by_cases h0 : k = 0
  · subst h0; rfl
  by_cases h34 : k = 34
  · subst h34; rfl
  by_cases h69 : k = 69
  · subst h69; rfl
  by_cases h105 : k = 105
  · subst h105; rfl
  · simp [distAt, Nstep, h0, h34, h69, h105]

variable {U CE CTn CTt : Type}

theorem simulate_succ (env : Env U CE CTn CTt) (n : ℕ)
    (s : LoopState U CE CTn CTt) :
    simulate env (n + 1) s = stepSim env n (simulate env n s) := rfl

/-- One loop iteration appends exactly one entry to each of the six logs. -/
theorem stepSim_log_lengths (env : Env U CE CTn CTt) (k : ℕ)
    (s : LoopState U CE CTn CTt) :
    (stepSim env k s).uE.length = s.uE.length + 1 ∧
    (stepSim env k s).uTn.length = s.uTn.length + 1 ∧
    (stepSim env k s).uTt.length = s.uTt.length + 1 ∧
    (stepSim env k s).lE.length = s.lE.length + 1 ∧
    (stepSim env k s).lTn.length = s.lTn.length + 1 ∧
    (stepSim env k s).lTt.length = s.lTt.length + 1 := by
  refine ⟨?_, ?_, ?_, ?_, ?_, ?_⟩ <;> simp [stepSim]

/-- Running `n` iterations appends exactly `n` entries to each log. -/
theorem simulate_log_lengths (env : Env U CE CTn CTt) (n : ℕ)
    (s : LoopState U CE CTn CTt) :
    (simulate env n s).uE.length = s.uE.length + n ∧
    (simulate env n s).uTn.length = s.uTn.length + n ∧
    (simulate env n s).uTt.length = s.uTt.length + n ∧
    (simulate env n s).lE.length = s.lE.length + n ∧
    (simulate env n s).lTn.length = s.lTn.length + n ∧
    (simulate env n s).lTt.length = s.lTt.length + n := by
  induction n with
  | zero => exact ⟨rfl, rfl, rfl, rfl, rfl, rfl⟩
  | succ n ih =>
    have h := stepSim_log_lengths env n (simulate env n s)
    refine ⟨?_, ?_, ?_, ?_, ?_, ?_⟩ <;>
      simp [simulate_succ, h.1, h.2.1, h.2.2.1, h.2.2.2.1, h.2.2.2.2.1,
        h.2.2.2.2.2, ih.1, ih.2.1, ih.2.2.1, ih.2.2.2.1, ih.2.2.2.2.1,
        ih.2.2.2.2.2] <;> omega

/-- Later iterations only ever append to the logs: the logs after `k`
iterations are a prefix of the logs after `k + t` iterations. -/
theorem simulate_log_prefix (env : Env U CE CTn CTt)
    (s : LoopState U CE CTn CTt) (k t : ℕ) :
    (simulate env k s).uE <+: (simulate env (k + t) s).uE ∧
    (simulate env k s).uTn <+: (simulate env (k + t) s).uTn ∧
    (simulate env k s).uTt <+: (simulate env (k + t) s).uTt ∧
    (simulate env k s).lE <+: (simulate env (k + t) s).lE ∧
    (simulate env k s).lTn <+: (simulate env (k + t) s).lTn ∧
    (simulate env k s).lTt <+: (simulate env (k + t) s).lTt := by
  induction t with
  | zero =>
    exact ⟨List.prefix_refl _, List.prefix_refl _, List.prefix_refl _,
      List.prefix_refl _, List.prefix_refl _, List.prefix_refl _⟩
  | succ t ih =>
    have hstep : ∀ l : List ℚ, l <+: l ++ [(0 : ℚ)] := fun l => ⟨_, rfl⟩
    refine ⟨?_, ?_, ?_, ?_, ?_, ?_⟩ <;>
      [exact ih.1.trans ⟨_, rfl⟩;
       exact ih.2.1.trans ⟨_, rfl⟩;
       exact ih.2.2.1.trans ⟨_, rfl⟩;
       exact ih.2.2.2.1.trans ⟨_, rfl⟩;
       exact ih.2.2.2.2.1.trans ⟨_, rfl⟩;
       exact ih.2.2.2.2.2.trans ⟨_, rfl⟩]

/-- `Run` is a deterministic relation. -/
theorem run_det {env : Env U CE CTn CTt} {n : ℕ}
    {s0 s1 s2 : LoopState U CE CTn CTt}
    (h1 : Run env n s0 s1) (h2 : Run env n s0 s2) : s1 = s2 := by
  induction h1 generalizing s2 with
  | zero s => cases h2; rfl
  | succ h ih =>
    cases h2 with
    | succ h2 => rw [ih h2]

/-- `simulate` realises the `Run` relation. -/
theorem run_simulate (env : Env U CE CTn CTt) (n : ℕ)
    (s : LoopState U CE CTn CTt) : Run env n s (simulate env n s) := by
  induction n with
  | zero => exact Run.zero s
  | succ n ih => exact Run.succ ih

/-- A failed iteration poisons the rest of the run. -/
theorem simulateF_error_mono (env : EnvF U CE CTn CTt) (n : ℕ)
    (s e : LoopState U CE CTn CTt) (t : ℕ)
    (h : simulateF env n s = Except.error e) :
    simulateF env (n + t) s = Except.error e := by
  induction t with
  | zero => exact h
  | succ t ih =>
    show simulateF env ((n + t) + 1) s = Except.error e
    rw [simulateF, ih]

end Unicycle

/-! ## Claims -/

open Unicycle in
/-- C1: every iteration `k` of the unicycle closed-loop loop performs, in
this order for each of the three controllers: (1) the scheduled disturbance
(if any) is applied to the tracked state, (2) the controller is queried on
the (possibly perturbed) tracked state, (3) the stage-cost deviation
relative to the optimal reference is recorded from that perturbed state and
that control, (4) the tracked state is advanced one plant step using the
control just produced; `Nsim = 250` iterations are run. -/
theorem unicycle_loop_iteration_order {U CE CTn CTt : Type}
    (env : Env U CE CTn CTt) (k : ℕ) (s : LoopState U CE CTn CTt) :
    Nsim = 250 ∧
    simulate env (k + 1) s = stepSim env k (simulate env k s) ∧
    ∃ x1E x1Tn x1Tt uEk uTnk uTtk,
      x1E = applyDist k s.xE ∧
      x1Tn = applyDist k s.xTn ∧
      x1Tt = applyDist k s.xTt ∧
      uEk = (env.stepE s.cE x1E).1 ∧
      uTnk = (env.stepTn s.cTn x1Tn).1 ∧
      uTtk = (env.stepTt s.cTt x1Tt).1 ∧
      (stepSim env k s).uE = s.uE ++ [uEk] ∧
      (stepSim env k s).uTn = s.uTn ++ [uTnk] ∧
      (stepSim env k s).uTt = s.uTt ++ [uTtk] ∧
      (stepSim env k s).lE =
        s.lE ++ [env.l x1E uEk - env.l (env.xref (k % N)) (env.uref (k % N))] ∧
      (stepSim env k s).lTn =
        s.lTn ++ [env.l x1Tn uTnk - env.l (env.xref (k % N)) (env.uref (k % N))] ∧
      (stepSim env k s).lTt =
        s.lTt ++ [env.l x1Tt uTtk - env.l (env.xref (k % N)) (env.uref (k % N))] ∧
      (stepSim env k s).xE = env.plant x1E uEk ∧
      (stepSim env k s).xTn = env.plant x1Tn uTnk ∧
      (stepSim env k s).xTt = env.plant x1Tt uTtk ∧
      (stepSim env k s).cE = (env.stepE s.cE x1E).2 ∧
      (stepSim env k s).cTn = (env.stepTn s.cTn x1Tn).2 ∧
      (stepSim env k s).cTt = (env.stepTt s.cTt x1Tt).2 :=
  ⟨rfl, rfl, _, _, _, _, _, _, rfl, rfl, rfl, rfl, rfl, rfl, rfl, rfl, rfl,
    rfl, rfl, rfl, rfl, rfl, rfl, rfl, rfl, rfl⟩

open Unicycle in
/-- C2: the stage-cost deviation recorded at step `k` for each controller is
`l(x_k, u_k) - l(x*_(k mod N), u*_(k mod N))` with `N = 30`, where `x_k` is
the tracked state after any disturbance and `u_k` the control returned by
the `step` call at step `k`, and the reference wraps via `k mod N`. -/
theorem unicycle_stage_cost_deviation {U CE CTn CTt : Type}
    (env : Env U CE CTn CTt) (k : ℕ) (s : LoopState U CE CTn CTt) :
    N = 30 ∧
    simulate env (k + 1) s = stepSim env k (simulate env k s) ∧
    (stepSim env k s).lE = s.lE ++
      [env.l (applyDist k s.xE) (env.stepE s.cE (applyDist k s.xE)).1 -
        env.l (env.xref (k % 30)) (env.uref (k % 30))] ∧
    (stepSim env k s).lTn = s.lTn ++
      [env.l (applyDist k s.xTn) (env.stepTn s.cTn (applyDist k s.xTn)).1 -
        env.l (env.xref (k % 30)) (env.uref (k % 30))] ∧
    (stepSim env k s).lTt = s.lTt ++
      [env.l (applyDist k s.xTt) (env.stepTt s.cTt (applyDist k s.xTt)).1 -
        env.l (env.xref (k % 30)) (env.uref (k % 30))] :=
  ⟨rfl, rfl, rfl, rfl, rfl⟩

/-- C3 (counterexample): the problem-data mapping is not held fixed after
`problem_data()` returns: evaluating the script's subsequent
`intermediate_vars(x, u, problem_data())` call (here at the initial-guess
point `X2 = 25, P2 = 49.743, P100 = 191.713, F200 = 215.888`) yields a
mapping with different keys. -/
theorem evap_problem_data_mutated_cex :
    Evap.intermediate_vars 25 (49743/1000) (191713/1000) (215888/1000)
      Evap.problem_data ≠ Evap.problem_data := by
  intro h
  have hlen := congrArg List.length h
  have h29 : (Evap.intermediate_vars 25 (49743/1000) (191713/1000)
      (215888/1000) Evap.problem_data).length = 29 := rfl
  have h19 : Evap.problem_data.length = 19 := rfl
  rw [h29, h19] at hlen
  exact absurd hlen (by decide)

/-- C3 (amended): `intermediate_vars` extends the problem-data mapping with
ten derived keys (`F2, F4, F5, Q200, F100, Q100, UA1, T100, T3, T2`), so
the mapping is not read-only after construction; however, every key present
in `problem_data()` keeps its original numeric constant value. -/
theorem evap_problem_data_keys_grow_values_preserved
    (xX2 xP2 uP100 uF200 : ℚ) (key : String)
    (hkey : key ∈ Evap.problem_data.map Prod.fst) :
    (Evap.intermediate_vars xX2 xP2 uP100 uF200 Evap.problem_data).lookup key =
      Evap.problem_data.lookup key ∧
    (Evap.intermediate_vars xX2 xP2 uP100 uF200 Evap.problem_data).map Prod.fst =
      Evap.addedKeys ++ Evap.problem_data.map Prod.fst := by
  refine ⟨?_, rfl⟩
  simp only [Evap.problem_data, List.map_cons, List.map_nil, List.mem_cons,
    List.not_mem_nil, or_false] at hkey
  rcases hkey with rfl | rfl | rfl | rfl | rfl | rfl | rfl | rfl | rfl | rfl |
    rfl | rfl | rfl | rfl | rfl | rfl | rfl | rfl | rfl
  all_goals rfl

/-- C3 (witness): the amended statement at the initial-guess point and the
key `"a"`. -/
theorem evap_problem_data_keys_witness :
    (Evap.intermediate_vars 25 (49743/1000) (191713/1000) (215888/1000)
      Evap.problem_data).lookup "a" = Evap.problem_data.lookup "a" ∧
    (Evap.intermediate_vars 25 (49743/1000) (191713/1000) (215888/1000)
      Evap.problem_data).map Prod.fst =
      Evap.addedKeys ++ Evap.problem_data.map Prod.fst :=
  evap_problem_data_keys_grow_values_preserved 25 (49743/1000) (191713/1000)
    (215888/1000) "a" (by decide)

open Unicycle in
/-- C4: the additive state perturbation is applied exactly at steps
`0, 34, 69, 105` with magnitudes `0.1, 0.1, 0.5, 0.5`; the same perturbation
is applied to every controller's tracked state, and at unscheduled steps no
tracked state is modified before the `step` call. -/
theorem unicycle_disturbance_application {U CE CTn CTt : Type}
    (env : Env U CE CTn CTt) (k : ℕ) (s : LoopState U CE CTn CTt) :
    (∀ x : UniState, applyDist k x =
      if k = 0 ∨ k = 34 then bump x (1/10)
      else if k = 69 ∨ k = 105 then bump x (1/2)
      else x) ∧
    (stepSim env k s).uE = s.uE ++ [(env.stepE s.cE (applyDist k s.xE)).1] ∧
    (stepSim env k s).uTn = s.uTn ++ [(env.stepTn s.cTn (applyDist k s.xTn)).1] ∧
    (stepSim env k s).uTt = s.uTt ++ [(env.stepTt s.cTt (applyDist k s.xTt)).1] := by
  refine ⟨?_, rfl, rfl, rfl⟩
  intro x
  unfold applyDist
  rw [distAt_eq]
  split_ifs <;> rfl

open Unicycle in
/-- C5: after the loop completes, each of the six logged sequences (controls
and cost deviations for the economic, tracking and tuned controllers) has
length exactly `Nsim = 250`; the logs as of step `k` are a prefix of the
final logs of length `k`, i.e. the `k`-th entry is produced at step `k`. -/
theorem unicycle_log_lengths {U CE CTn CTt : Type} (env : Env U CE CTn CTt)
    (s0 : LoopState U CE CTn CTt) (k : ℕ)
    (h0 : s0.uE = [] ∧ s0.uTn = [] ∧ s0.uTt = [] ∧
      s0.lE = [] ∧ s0.lTn = [] ∧ s0.lTt = [])
    (hk : k ≤ Nsim) :
    ((simulate env Nsim s0).uE.length = 250 ∧
     (simulate env Nsim s0).uTn.length = 250 ∧
     (simulate env Nsim s0).uTt.length = 250 ∧
     (simulate env Nsim s0).lE.length = 250 ∧
     (simulate env Nsim s0).lTn.length = 250 ∧
     (simulate env Nsim s0).lTt.length = 250) ∧
    ((simulate env k s0).uE.length = k ∧
     (simulate env k s0).uTn.length = k ∧
     (simulate env k s0).uTt.length = k ∧
     (simulate env k s0).lE.length = k ∧
     (simulate env k s0).lTn.length = k ∧
     (simulate env k s0).lTt.length = k) ∧
    ((simulate env k s0).uE <+: (simulate env Nsim s0).uE ∧
     (simulate env k s0).uTn <+: (simulate env Nsim s0).uTn ∧
     (simulate env k s0).uTt <+: (simulate env Nsim s0).uTt ∧
     (simulate env k s0).lE <+: (simulate env Nsim s0).lE ∧
     (simulate env k s0).lTn <+: (simulate env Nsim s0).lTn ∧
     (simulate env k s0).lTt <+: (simulate env Nsim s0).lTt) := by
  obtain ⟨h1, h2, h3, h4, h5, h6⟩ := h0
  have L := simulate_log_lengths env Nsim s0
  have Lk := simulate_log_lengths env k s0
  obtain ⟨t, ht⟩ := Nat.le.dest hk
  have P := simulate_log_prefix env s0 k t
  rw [ht] at P
  refine ⟨⟨?_, ?_, ?_, ?_, ?_, ?_⟩, ⟨?_, ?_, ?_, ?_, ?_, ?_⟩, P⟩
  · rw [L.1, h1]; rfl
  · rw [L.2.1, h2]; rfl
  · rw [L.2.2.1, h3]; rfl
  · rw [L.2.2.2.1, h4]; rfl
  · rw [L.2.2.2.2.1, h5]; rfl
  · rw [L.2.2.2.2.2, h6]; rfl
  · rw [Lk.1, h1]; simp
  · rw [Lk.2.1, h2]; simp
  · rw [Lk.2.2.1, h3]; simp
  · rw [Lk.2.2.2.1, h4]; simp
  · rw [Lk.2.2.2.2.1, h5]; simp
  · rw [Lk.2.2.2.2.2, h6]; simp

open Unicycle in
/-- C5 (witness): the log-length statement at the concrete environment
`env0`, its initial state, and `k = 3`. -/
theorem unicycle_log_lengths_witness :
    ((simulate env0 Nsim s0w).uE.length = 250 ∧
     (simulate env0 Nsim s0w).uTn.length = 250 ∧
     (simulate env0 Nsim s0w).uTt.length = 250 ∧
     (simulate env0 Nsim s0w).lE.length = 250 ∧
     (simulate env0 Nsim s0w).lTn.length = 250 ∧
     (simulate env0 Nsim s0w).lTt.length = 250) ∧
    ((simulate env0 3 s0w).uE.length = 3 ∧
     (simulate env0 3 s0w).uTn.length = 3 ∧
     (simulate env0 3 s0w).uTt.length = 3 ∧
     (simulate env0 3 s0w).lE.length = 3 ∧
     (simulate env0 3 s0w).lTn.length = 3 ∧
     (simulate env0 3 s0w).lTt.length = 3) ∧
    ((simulate env0 3 s0w).uE <+: (simulate env0 Nsim s0w).uE ∧
     (simulate env0 3 s0w).uTn <+: (simulate env0 Nsim s0w).uTn ∧
     (simulate env0 3 s0w).uTt <+: (simulate env0 Nsim s0w).uTt ∧
     (simulate env0 3 s0w).lE <+: (simulate env0 Nsim s0w).lE ∧
     (simulate env0 3 s0w).lTn <+: (simulate env0 Nsim s0w).lTn ∧
     (simulate env0 3 s0w).lTt <+: (simulate env0 Nsim s0w).lTt) :=
  unicycle_log_lengths env0 s0w 3 ⟨rfl, rfl, rfl, rfl, rfl, rfl⟩ (by decide)

/-- C6: in each script the economic, tracking and tuned controllers are
three distinct `create_mpc` invocations on the same tuner with the same
horizon (`N = 30` in the unicycle script, `N = 200` in the evaporation
script). -/
theorem controllers_same_horizon_distinct_variants :
    Unicycle.ctrlE_call.tunerId = Unicycle.ctrlTn_call.tunerId ∧
    Unicycle.ctrlTn_call.tunerId = Unicycle.ctrlTt_call.tunerId ∧
    Unicycle.ctrlE_call.horizon = 30 ∧
    Unicycle.ctrlTn_call.horizon = 30 ∧
    Unicycle.ctrlTt_call.horizon = 30 ∧
    Unicycle.ctrlE_call ≠ Unicycle.ctrlTn_call ∧
    Unicycle.ctrlE_call ≠ Unicycle.ctrlTt_call ∧
    Unicycle.ctrlTn_call ≠ Unicycle.ctrlTt_call ∧
    Evap.ctrlE_call.tunerId = Evap.ctrlTn_call.tunerId ∧
    Evap.ctrlTn_call.tunerId = Evap.ctrlTt_call.tunerId ∧
    Evap.ctrlE_call.horizon = 200 ∧
    Evap.ctrlTn_call.horizon = 200 ∧
    Evap.ctrlTt_call.horizon = 200 ∧
    Evap.ctrlE_call ≠ Evap.ctrlTn_call ∧
    Evap.ctrlE_call ≠ Evap.ctrlTt_call ∧
    Evap.ctrlTn_call ≠ Evap.ctrlTt_call := by decide

open Unicycle in
/-- C7: the closed-loop simulation is deterministic: two runs of the loop
from the same initial state under the same (deterministic) environment end
with identical logged control and cost-deviation sequences. -/
theorem unicycle_loop_deterministic {U CE CTn CTt : Type}
    (env : Env U CE CTn CTt) (n : ℕ) (s0 s1 s2 : LoopState U CE CTn CTt)
    (h1 : Run env n s0 s1) (h2 : Run env n s0 s2) :
    s1.uE = s2.uE ∧ s1.uTn = s2.uTn ∧ s1.uTt = s2.uTt ∧
    s1.lE = s2.lE ∧ s1.lTn = s2.lTn ∧ s1.lTt = s2.lTt := by
  cases run_det h1 h2
  exact ⟨rfl, rfl, rfl, rfl, rfl, rfl⟩

open Unicycle in
/-- C7 (witness): two one-iteration runs of `env0` from `s0w`. -/
theorem unicycle_loop_deterministic_witness :
    (stepSim env0 0 s0w).uE = (stepSim env0 0 s0w).uE ∧
    (stepSim env0 0 s0w).uTn = (stepSim env0 0 s0w).uTn ∧
    (stepSim env0 0 s0w).uTt = (stepSim env0 0 s0w).uTt ∧
    (stepSim env0 0 s0w).lE = (stepSim env0 0 s0w).lE ∧
    (stepSim env0 0 s0w).lTn = (stepSim env0 0 s0w).lTn ∧
    (stepSim env0 0 s0w).lTt = (stepSim env0 0 s0w).lTt :=
  unicycle_loop_deterministic env0 1 s0w (stepSim env0 0 s0w)
    (stepSim env0 0 s0w) (Run.succ (Run.zero s0w)) (Run.succ (Run.zero s0w))

open Unicycle in
/-- C8: the loop performs no error handling: a failure of an external call
propagates unhandled to the whole run (no retry or recovery), and whichever
of the six fallible calls of an iteration fails (any of the three
controller `step` calls or any of the three plant calls), the crash state
holds exactly the entries appended and assignments executed before the
failing call and nothing after it; when every call succeeds the iteration
completes normally. -/
theorem unicycle_no_error_handling {U CE CTn CTt : Type}
    (env : EnvF U CE CTn CTt) :
    (∀ (n : ℕ) (s e : LoopState U CE CTn CTt) (m : ℕ),
      simulateF env n s = Except.error e → n ≤ m →
      simulateF env m s = Except.error e) ∧
    (∀ (k : ℕ) (s : LoopState U CE CTn CTt),
      env.stepE s.cE (applyDist k s.xE) = none →
      stepSimF env k s = Except.error { s with
        xE := applyDist k s.xE, xTn := applyDist k s.xTn,
        xTt := applyDist k s.xTt }) ∧
    (∀ (k : ℕ) (s : LoopState U CE CTn CTt) (rE : U × CE),
      env.stepE s.cE (applyDist k s.xE) = some rE →
      env.stepTn s.cTn (applyDist k s.xTn) = none →
      stepSimF env k s = Except.error { s with
        xE := applyDist k s.xE, xTn := applyDist k s.xTn,
        xTt := applyDist k s.xTt,
        uE := s.uE ++ [rE.1], cE := rE.2 }) ∧
    (∀ (k : ℕ) (s : LoopState U CE CTn CTt) (rE : U × CE) (rTn : U × CTn),
      env.stepE s.cE (applyDist k s.xE) = some rE →
      env.stepTn s.cTn (applyDist k s.xTn) = some rTn →
      env.stepTt s.cTt (applyDist k s.xTt) = none →
      stepSimF env k s = Except.error { s with
        xE := applyDist k s.xE, xTn := applyDist k s.xTn,
        xTt := applyDist k s.xTt,
        uE := s.uE ++ [rE.1], cE := rE.2,
        uTn := s.uTn ++ [rTn.1], cTn := rTn.2 }) ∧
    (∀ (k : ℕ) (s : LoopState U CE CTn CTt) (rE : U × CE) (rTn : U × CTn)
      (rTt : U × CTt),
      env.stepE s.cE (applyDist k s.xE) = some rE →
      env.stepTn s.cTn (applyDist k s.xTn) = some rTn →
      env.stepTt s.cTt (applyDist k s.xTt) = some rTt →
      env.plant (applyDist k s.xE) rE.1 = none →
      stepSimF env k s = Except.error { s with
        xE := applyDist k s.xE, xTn := applyDist k s.xTn,
        xTt := applyDist k s.xTt,
        uE := s.uE ++ [rE.1], cE := rE.2,
        uTn := s.uTn ++ [rTn.1], cTn := rTn.2,
        uTt := s.uTt ++ [rTt.1], cTt := rTt.2,
        lE := s.lE ++ [env.l (applyDist k s.xE) rE.1 -
          env.l (env.xref (k % N)) (env.uref (k % N))],
        lTn := s.lTn ++ [env.l (applyDist k s.xTn) rTn.1 -
          env.l (env.xref (k % N)) (env.uref (k % N))],
        lTt := s.lTt ++ [env.l (applyDist k s.xTt) rTt.1 -
          env.l (env.xref (k % N)) (env.uref (k % N))] }) ∧
    (∀ (k : ℕ) (s : LoopState U CE CTn CTt) (rE : U × CE) (rTn : U × CTn)
      (rTt : U × CTt) (x2E : UniState),
      env.stepE s.cE (applyDist k s.xE) = some rE →
      env.stepTn s.cTn (applyDist k s.xTn) = some rTn →
      env.stepTt s.cTt (applyDist k s.xTt) = some rTt →
      env.plant (applyDist k s.xE) rE.1 = some x2E →
      env.plant (applyDist k s.xTn) rTn.1 = none →
      stepSimF env k s = Except.error { s with
        xE := x2E, xTn := applyDist k s.xTn,
        xTt := applyDist k s.xTt,
        uE := s.uE ++ [rE.1], cE := rE.2,
        uTn := s.uTn ++ [rTn.1], cTn := rTn.2,
        uTt := s.uTt ++ [rTt.1], cTt := rTt.2,
        lE := s.lE ++ [env.l (applyDist k s.xE) rE.1 -
          env.l (env.xref (k % N)) (env.uref (k % N))],
        lTn := s.lTn ++ [env.l (applyDist k s.xTn) rTn.1 -
          env.l (env.xref (k % N)) (env.uref (k % N))],
        lTt := s.lTt ++ [env.l (applyDist k s.xTt) rTt.1 -
          env.l (env.xref (k % N)) (env.uref (k % N))] }) ∧
    (∀ (k : ℕ) (s : LoopState U CE CTn CTt) (rE : U × CE) (rTn : U × CTn)
      (rTt : U × CTt) (x2E x2Tn : UniState),
      env.stepE s.cE (applyDist k s.xE) = some rE →
      env.stepTn s.cTn (applyDist k s.xTn) = some rTn →
      env.stepTt s.cTt (applyDist k s.xTt) = some rTt →
      env.plant (applyDist k s.xE) rE.1 = some x2E →
      env.plant (applyDist k s.xTn) rTn.1 = some x2Tn →
      env.plant (applyDist k s.xTt) rTt.1 = none →
      stepSimF env k s = Except.error { s with
        xE := x2E, xTn := x2Tn,
        xTt := applyDist k s.xTt,
        uE := s.uE ++ [rE.1], cE := rE.2,
        uTn := s.uTn ++ [rTn.1], cTn := rTn.2,
        uTt := s.uTt ++ [rTt.1], cTt := rTt.2,
        lE := s.lE ++ [env.l (applyDist k s.xE) rE.1 -
          env.l (env.xref (k % N)) (env.uref (k % N))],
        lTn := s.lTn ++ [env.l (applyDist k s.xTn) rTn.1 -
          env.l (env.xref (k % N)) (env.uref (k % N))],
        lTt := s.lTt ++ [env.l (applyDist k s.xTt) rTt.1 -
          env.l (env.xref (k % N)) (env.uref (k % N))] }) ∧
    (∀ (k : ℕ) (s : LoopState U CE CTn CTt) (rE : U × CE) (rTn : U × CTn)
      (rTt : U × CTt) (x2E x2Tn x2Tt : UniState),
      env.stepE s.cE (applyDist k s.xE) = some rE →
      env.stepTn s.cTn (applyDist k s.xTn) = some rTn →
      env.stepTt s.cTt (applyDist k s.xTt) = some rTt →
      env.plant (applyDist k s.xE) rE.1 = some x2E →
      env.plant (applyDist k s.xTn) rTn.1 = some x2Tn →
      env.plant (applyDist k s.xTt) rTt.1 = some x2Tt →
      stepSimF env k s = Except.ok { s with
        xE := x2E, xTn := x2Tn, xTt := x2Tt,
        uE := s.uE ++ [rE.1], cE := rE.2,
        uTn := s.uTn ++ [rTn.1], cTn := rTn.2,
        uTt := s.uTt ++ [rTt.1], cTt := rTt.2,
        lE := s.lE ++ [env.l (applyDist k s.xE) rE.1 -
          env.l (env.xref (k % N)) (env.uref (k % N))],
        lTn := s.lTn ++ [env.l (applyDist k s.xTn) rTn.1 -
          env.l (env.xref (k % N)) (env.uref (k % N))],
        lTt := s.lTt ++ [env.l (applyDist k s.xTt) rTt.1 -
          env.l (env.xref (k % N)) (env.uref (k % N))] }) := by
  refine ⟨?_, ?_, ?_, ?_, ?_, ?_, ?_, ?_⟩
  · intro n s e m h hle
    obtain ⟨t, ht⟩ := Nat.le.dest hle
    rw [← ht]
    exact simulateF_error_mono env n s e t h
  · intro k s h1
    simp only [stepSimF, h1]
  · intro k s rE h1 h2
    simp only [stepSimF, h1, h2]
  · intro k s rE rTn h1 h2 h3
    simp only [stepSimF, h1, h2, h3]
  · intro k s rE rTn rTt h1 h2 h3 h4
    simp only [stepSimF, h1, h2, h3, h4]
  · intro k s rE rTn rTt x2E h1 h2 h3 h4 h5
    simp only [stepSimF, h1, h2, h3, h4, h5]
  · intro k s rE rTn rTt x2E x2Tn h1 h2 h3 h4 h5 h6
    simp only [stepSimF, h1, h2, h3, h4, h5, h6]
  · intro k s rE rTn rTt x2E x2Tn x2Tt h1 h2 h3 h4 h5 h6
    simp only [stepSimF, h1, h2, h3, h4, h5, h6]

open Unicycle in
/-- C8 (witness): under `envF0` (tracking `step` always fails) the first
iteration crashes in state `eF0` and the whole run stays crashed there. -/
theorem unicycle_no_error_handling_witness :
    simulateF envF0 2 sF0 = Except.error eF0 ∧
    stepSimF envF0 0 sF0 = Except.error eF0 := by
  have h2 := (unicycle_no_error_handling envF0).2.2.1 0 sF0
    ((applyDist 0 sF0.xE) 0, ()) rfl rfl
  have h1 : simulateF envF0 1 sF0 = Except.error eF0 := h2
  exact ⟨(unicycle_no_error_handling envF0).1 1 sF0 eF0 2 h1 (by decide), h1⟩

open Unicycle in
/-- C9: a scheduled disturbance modifies only the first state component
(index 0, the `z` position): `bump` adds `d` there and leaves every other
component unchanged, and the disturbance application leaves every non-zero
index of every tracked state unchanged. -/
theorem unicycle_disturbance_frame (k : ℕ) (x : UniState) (d : ℚ)
    (i : Fin 4) (hi : i ≠ 0) :
    bump x d 0 = x 0 + d ∧ bump x d i = x i ∧ applyDist k x i = x i := by
  refine ⟨?_, ?_, ?_⟩
  · simp [bump]
  · simp [bump, hi]
  · unfold applyDist
    cases distAt k with
    | none => rfl
    | some d => simp [bump, hi]

open Unicycle in
/-- C9 (witness): at step 34, component 1 of the zero state is unchanged. -/
theorem unicycle_disturbance_frame_witness :
    bump (fun _ => 0) (1/10) 0 = (fun _ => (0 : ℚ)) 0 + 1/10 ∧
    bump (fun _ => 0) (1/10) 1 = (fun _ => (0 : ℚ)) 1 ∧
    applyDist 34 (fun _ => 0) 1 = (fun _ => (0 : ℚ)) 1 :=
  unicycle_disturbance_frame 34 (fun _ => 0) (1/10) 1 (by decide)

open Unicycle in
/-- C10: the plant model of the closed-loop loop and the model handed to the
tuner are built by the same `dynamics` call with the same problem data and
the same step `h = T/N`, so there is no plant-model mismatch: they produce
the same next state on every state and control. -/
theorem unicycle_no_plant_model_mismatch
    (integrator : (UniState → ℚ → UniState) → ℚ → ℕ →
      (UniState → ℚ → UniState)) :
    plant_sim integrator = dynamicsF integrator problemData (T / (N : ℚ)) ∧
    tunerModel integrator = dynamicsF integrator problemData (T / (N : ℚ)) ∧
    ∀ (x : UniState) (u : ℚ),
      plant_sim integrator x u = tunerModel integrator x u :=
  ⟨rfl, rfl, fun _ _ => rfl⟩
